import Mathlib

/-!
Verification development for the Forex dashboard repository.

The repository has two files: `scripts/data_fetcher.py` (class
`ForexDataFetcher` with `fetch_forex_data`, `calculate_indicators`,
`save_data`, `load_data`) and `app.py` (the Streamlit page).  This file
embeds, over lists and rationals, the data model and the operations the
claims are about:

* a pandas `DataFrame` is a row count plus an association list of named
  columns; a cell is `Option Val` where `none` stands for NaN and `Val`
  is a numeric or string value (pandas columns are heterogeneous);
* `calculate_indicators` is a sequence of column assignments run against
  one mutable table.  Python passes the frame by reference and every
  `df[...] = ...` statement mutates it in place; the embedding threads
  that single table through `runSteps`, so the first component of the
  result is at once the value returned by the function and the state of
  the caller's variable after the call.  An exception inside the `try`
  block stops the sequence; the `except` branch returns the table as
  mutated so far (flag `false` records that the failure was caught and
  logged);
* the indicator formulas themselves (`ta.trend.sma_indicator`,
  `ta.trend.ema_indicator`, `ta.volatility.BollingerBands`,
  `ta.momentum.rsi`, `ta.trend.MACD`, `ta.momentum.StochasticOscillator`,
  `ta.volatility.average_true_range`) live in the external `ta` library,
  whose code is not part of the repository; they are modelled from the
  spec, as flagged on each definition.  Rationals replace IEEE floats;
  NaN is `none`.  The standard deviation of rationals is irrational in
  general, so the Bollinger computation is parametrised by a function
  `sq` applied to the rolling population variance; `sq` affects only the
  numeric values of the two Bollinger bands, never which cells are
  defined, and no claim mentions those values.
-/

/-- Value stored in one cell of a pandas column: a float or a string.
NaN is represented outside, as `none` in `Option Val`. -/
inductive Val where
  | num (q : ℚ)
  | str (s : String)
deriving DecidableEq, Repr

/-- A pandas DataFrame: a row count and named columns in order.  Every
well-formed frame has each column of length `nrows`. -/
structure DataFrame where
  nrows : ℕ
  cols : List (String × List (Option Val))
deriving DecidableEq, Repr

/-- Pandas `df.empty`: true when either axis has length zero. -/
def dfEmpty (df : DataFrame) : Bool :=
  df.nrows == 0 || df.cols.isEmpty

/-- Column lookup `df[name]`, raising `KeyError` when absent. -/
def getColCells (df : DataFrame) (name : String) : Except String (List (Option Val)) :=
  match df.cols.lookup name with
  | some cells => .ok cells
  | none => .error "KeyError"

/-- Read a column as a numeric series.  A string cell makes the numeric
computations of the pipeline raise, modelled as a `TypeError`; a NaN
cell stays NaN. -/
def cellsToNum : List (Option Val) → Except String (List (Option ℚ))
  | [] => .ok []
  | none :: rest =>
    match cellsToNum rest with
    | .ok l => .ok (none :: l)
    | .error e => .error e
  | some (Val.num q) :: rest =>
    match cellsToNum rest with
    | .ok l => .ok (some q :: l)
    | .error e => .error e
  | some (Val.str _) :: _ => .error "TypeError"

/-- `df[name]` as a numeric series. -/
def getNumCol (df : DataFrame) (name : String) : Except String (List (Option ℚ)) :=
  match getColCells df name with
  | .ok cells => cellsToNum cells
  | .error e => .error e

/-- Column assignment inside the column list: replace the column when the
name exists, append it otherwise (pandas `df[name] = series`). -/
def setColIn (cols : List (String × List (Option Val))) (name : String)
    (v : List (Option Val)) : List (String × List (Option Val)) :=
  match cols with
  | [] => [(name, v)]
  | (n, c) :: rest =>
    if n == name then (n, v) :: rest else (n, c) :: setColIn rest name v

/-- Column assignment `df[name] = series` on the frame. -/
def setCol (df : DataFrame) (name : String) (v : List (Option Val)) : DataFrame :=
  { df with cols := setColIn df.cols name v }

/-- Whether the frame has a column of the given name. -/
def hasCol (df : DataFrame) (name : String) : Bool :=
  (df.cols.lookup name).isSome

/-- Cell access used by the claims: `none` when the column is absent,
`some none` when the cell is NaN, `some (some v)` otherwise. -/
def cellAt (df : DataFrame) (name : String) (i : ℕ) : Option (Option Val) :=
  (df.cols.lookup name).map (fun cells => cells.getD i none)

/-- Wrap a numeric series as column cells. -/
def numCells (xs : List (Option ℚ)) : List (Option Val) :=
  xs.map (Option.map Val.num)

/-- One OHLCV price bar: `o h l c v` are the Open, High, Low, Close and
Volume fields of the spec's PriceBar. -/
structure Bar where
  o : ℚ
  h : ℚ
  l : ℚ
  c : ℚ
  v : ℚ
deriving DecidableEq, Repr

/-- One numeric input column built from the bar list. -/
def numColOf (f : Bar → ℚ) (bars : List Bar) : List (Option Val) :=
  numCells ((bars.map f).map some)

/-- The frame `fetch_forex_data` hands to the engine: columns Open, High,
Low, Close, Volume in order, one row per bar, no NaN cell. -/
def ohlcvFrame (bars : List Bar) : DataFrame :=
  ⟨bars.length,
    [("Open", numColOf Bar.o bars), ("High", numColOf Bar.h bars),
     ("Low", numColOf Bar.l bars), ("Close", numColOf Bar.c bars),
     ("Volume", numColOf Bar.v bars)]⟩

/-! Series helpers.  A series is `List (Option ℚ)` with `none` for NaN;
the indicator formulas are modelled from the spec (the `ta` library is
not part of the repository). -/

/-- Number of leading NaN entries of a series. -/
def leadNones : List (Option ℚ) → ℕ
  | none :: rest => leadNones rest + 1
  | _ => 0

/-- The values after the leading NaN prefix, provided no NaN occurs
later (in this pipeline every series an indicator is applied to is a
NaN prefix followed by values). -/
def cleanTail (xs : List (Option ℚ)) : Option (List ℚ) :=
  let rest := xs.drop (leadNones xs)
  if rest.all Option.isSome then some rest.reduceOption else none

/-- Modelled from the spec: apply an indicator defined on a clean series
to a series with a leading undefined stretch, as pandas rolling/ewm
computations skip a NaN prefix.  A NaN strictly inside the value part
cannot arise in this pipeline; such a series maps to all-undefined. -/
def liftInd (f : List ℚ → List (Option ℚ)) (xs : List (Option ℚ)) : List (Option ℚ) :=
  match cleanTail xs with
  | some vs => List.replicate (leadNones xs) none ++ f vs
  | none => List.replicate xs.length none

/-- Modelled from the spec: SMA(n) at row `i`, the arithmetic mean of
the trailing `n` values inclusive of the current row, undefined for the
first `n − 1` rows. -/
def smaAt (n : ℕ) (xs : List ℚ) (i : ℕ) : Option ℚ :=
  if n ≤ i + 1 then some ((((xs.take (i + 1)).drop (i + 1 - n)).sum) / n) else none

/-- Modelled from the spec: the SMA(n) series. -/
def sma (n : ℕ) (xs : List ℚ) : List (Option ℚ) :=
  (List.range xs.length).map (smaAt n xs)

/-- Modelled from the spec: rolling population variance over the same
trailing window as the SMA. -/
def rollingVarAt (n : ℕ) (xs : List ℚ) (i : ℕ) : Option ℚ :=
  if n ≤ i + 1 then
    let w := (xs.take (i + 1)).drop (i + 1 - n)
    let m := w.sum / n
    some ((w.map (fun x => (x - m) ^ 2)).sum / n)
  else none

/-- Modelled from the spec: upper Bollinger band, mid + k·stddev, with
the standard deviation abstracted as `sq` of the rolling variance. -/
def bollingerH (sq : ℚ → ℚ) (n : ℕ) (k : ℚ) (xs : List ℚ) : List (Option ℚ) :=
  (List.range xs.length).map fun i =>
    match smaAt n xs i, rollingVarAt n xs i with
    | some m, some vr => some (m + k * sq vr)
    | _, _ => none

/-- Modelled from the spec: lower Bollinger band, mid − k·stddev. -/
def bollingerL (sq : ℚ → ℚ) (n : ℕ) (k : ℚ) (xs : List ℚ) : List (Option ℚ) :=
  (List.range xs.length).map fun i =>
    match smaAt n xs i, rollingVarAt n xs i with
    | some m, some vr => some (m - k * sq vr)
    | _, _ => none

/-- Exponential smoothing recursion: each output is
`a * x + (1 - a) * previous`. -/
def emaRec (a y : ℚ) : List ℚ → List ℚ
  | [] => []
  | x :: rest =>
    let y2 := a * x + (1 - a) * y
    y2 :: emaRec a y2 rest

/-- Modelled from the spec: EMA(span) with smoothing constant
`α = 2/(span+1)`, seeded with SMA(span) at the first fully populated
window and undefined before it. -/
def emaSpec (span : ℕ) (xs : List ℚ) : List (Option ℚ) :=
  if xs.length < span then List.replicate xs.length none
  else
    let seed := (xs.take span).sum / span
    let a : ℚ := 2 / ((span : ℚ) + 1)
    (List.replicate (span - 1) (none : Option ℚ)) ++
      (some seed :: (emaRec a seed (xs.drop span)).map some)

/-- Consecutive differences of a series, one shorter than the input. -/
def diffs : List ℚ → List ℚ
  | a :: b :: rest => (b - a) :: diffs (b :: rest)
  | _ => []

/-- Smoothing recursion started from the first element of the series. -/
def wilderSmooth (a : ℚ) : List ℚ → List ℚ
  | [] => []
  | x :: rest => x :: emaRec a x rest

/-- Modelled from the spec: RSI(n) from smoothed averages of gains and
losses over the trailing window, `RSI = 100 − 100/(1 + RS)`, equal to
100 when the average loss is zero and the average gain positive, and
undefined with no net movement or before `n` differences exist. -/
def rsiSpec (n : ℕ) (xs : List ℚ) : List (Option ℚ) :=
  let g := wilderSmooth (1 / (n : ℚ)) ((diffs xs).map (fun d => max d 0))
  let l := wilderSmooth (1 / (n : ℚ)) ((diffs xs).map (fun d => max (-d) 0))
  (List.range xs.length).map fun i =>
    if n ≤ i then
      let ag := g.getD (i - 1) 0
      let al := l.getD (i - 1) 0
      if al = 0 then (if ag = 0 then none else some 100)
      else some (100 - 100 / (1 + ag / al))
    else none

/-- Pointwise difference of two series; NaN wherever either side is. -/
def optSub : Option ℚ → Option ℚ → Option ℚ
  | some a, some b => some (a - b)
  | _, _ => none

/-- Elementwise difference of two series. -/
def optZipSub (a b : List (Option ℚ)) : List (Option ℚ) :=
  List.zipWith optSub a b

/-- Modelled from the spec: SMA(n) over a series that may itself hold
undefined entries; a window is defined when full and NaN-free. -/
def smaOptAt (n : ℕ) (xs : List (Option ℚ)) (i : ℕ) : Option ℚ :=
  if n ≤ i + 1 then
    let w := (xs.take (i + 1)).drop (i + 1 - n)
    if w.all Option.isSome then some (w.reduceOption.sum / n) else none
  else none

/-- Modelled from the spec: SMA(n) series over an optional series. -/
def smaOpt (n : ℕ) (xs : List (Option ℚ)) : List (Option ℚ) :=
  (List.range xs.length).map (smaOptAt n xs)

/-- Largest element of a nonempty list. -/
def listMax : List ℚ → Option ℚ
  | [] => none
  | x :: rest => some (rest.foldl max x)

/-- Smallest element of a nonempty list. -/
def listMin : List ℚ → Option ℚ
  | [] => none
  | x :: rest => some (rest.foldl min x)

/-- Modelled from the spec: stochastic %K at row `i`,
`100·(Close − min(Low,14)) / (max(High,14) − min(Low,14))`, undefined
before the window is full and undefined — not crashed — when the
denominator is zero. -/
def stochAt (hs ls cs : List (Option ℚ)) (i : ℕ) : Option ℚ :=
  if 14 ≤ i + 1 then
    let hw := (hs.take (i + 1)).drop (i + 1 - 14)
    let lw := (ls.take (i + 1)).drop (i + 1 - 14)
    if hw.all Option.isSome && lw.all Option.isSome then
      match cs.getD i none with
      | none => none
      | some cv =>
        match listMax hw.reduceOption, listMin lw.reduceOption with
        | some mx, some mn =>
          if mx = mn then none else some (100 * (cv - mn) / (mx - mn))
        | _, _ => none
    else none
  else none

/-- Modelled from the spec: the stochastic %K series. -/
def stochOpt (hs ls cs : List (Option ℚ)) : List (Option ℚ) :=
  (List.range cs.length).map (stochAt hs ls cs)

/-- Modelled from the spec: True Range at row `i`; the first bar uses
High − Low only, later bars the maximum of High − Low,
|High − prevClose| and |Low − prevClose|. -/
def trAt (hs ls cs : List (Option ℚ)) (i : ℕ) : Option ℚ :=
  match hs.getD i none, ls.getD i none with
  | some hi, some li =>
    if i = 0 then some (hi - li)
    else
      match cs.getD (i - 1) none with
      | some pc => some (max (hi - li) (max |hi - pc| |li - pc|))
      | none => none
  | _, _ => none

/-- Modelled from the spec: ATR(14), the rolling mean of True Range. -/
def atrOpt (hs ls cs : List (Option ℚ)) : List (Option ℚ) :=
  smaOpt 14 ((List.range cs.length).map (trAt hs ls cs))

/-- Boolean test `series < c` of the signal masks; false on NaN, as the
pandas comparison is. -/
def optLt (x : Option ℚ) (c : ℚ) : Bool :=
  match x with
  | some q => decide (q < c)
  | none => false

/-- Boolean test `series > c`; false on NaN. -/
def optGt (x : Option ℚ) (c : ℚ) : Bool :=
  match x with
  | some q => decide (c < q)
  | none => false

/-- Masked assignment `df.loc[series < c, col] = v`. -/
def locSetLt (cur : List (Option Val)) (r : List (Option ℚ)) (c : ℚ) (v : Val) :
    List (Option Val) :=
  List.zipWith (fun cell x => if optLt x c then some v else cell) cur r

/-- Masked assignment `df.loc[series > c, col] = v`. -/
def locSetGt (cur : List (Option Val)) (r : List (Option ℚ)) (c : ℚ) (v : Val) :
    List (Option Val) :=
  List.zipWith (fun cell x => if optGt x c then some v else cell) cur r

/-! The `calculate_indicators` pipeline, one step per statement group of
the `try` block, in source order. -/

/-- Line 74: `df['SMA_20'] = ta.trend.sma_indicator(df['Close'], window=20)`. -/
def stepSMA20 (df : DataFrame) : Except String DataFrame :=
  match getNumCol df "Close" with
  | .ok c => .ok (setCol df "SMA_20" (numCells (liftInd (sma 20) c)))
  | .error e => .error e

/-- Line 75: the 50-bar simple moving average column. -/
def stepSMA50 (df : DataFrame) : Except String DataFrame :=
  match getNumCol df "Close" with
  | .ok c => .ok (setCol df "SMA_50" (numCells (liftInd (sma 50) c)))
  | .error e => .error e

/-- Line 76: the 12-bar exponential moving average column. -/
def stepEMA12 (df : DataFrame) : Except String DataFrame :=
  match getNumCol df "Close" with
  | .ok c => .ok (setCol df "EMA_12" (numCells (liftInd (emaSpec 12) c)))
  | .error e => .error e

/-- Line 77: the 26-bar exponential moving average column. -/
def stepEMA26 (df : DataFrame) : Except String DataFrame :=
  match getNumCol df "Close" with
  | .ok c => .ok (setCol df "EMA_26" (numCells (liftInd (emaSpec 26) c)))
  | .error e => .error e

/-- Lines 80–83: the Bollinger object is built from `df['Close']` and its
three bands are assigned; a failure strikes before any of the three
assignments. -/
def stepBB (sq : ℚ → ℚ) (df : DataFrame) : Except String DataFrame :=
  match getNumCol df "Close" with
  | .ok c =>
    let df1 := setCol df "BB_High" (numCells (liftInd (bollingerH sq 20 2) c))
    let df2 := setCol df1 "BB_Mid" (numCells (liftInd (sma 20) c))
    .ok (setCol df2 "BB_Low" (numCells (liftInd (bollingerL sq 20 2) c)))
  | .error e => .error e

/-- Line 86: the 14-bar RSI column. -/
def stepRSI (df : DataFrame) : Except String DataFrame :=
  match getNumCol df "Close" with
  | .ok c => .ok (setCol df "RSI" (numCells (liftInd (rsiSpec 14) c)))
  | .error e => .error e

/-- Lines 89–92: the MACD object and its three columns.  MACD is
EMA(12) − EMA(26) of Close, the signal line EMA(9) of the MACD series,
the histogram their difference. -/
def stepMACD (df : DataFrame) : Except String DataFrame :=
  match getNumCol df "Close" with
  | .ok c =>
    let m := optZipSub (liftInd (emaSpec 12) c) (liftInd (emaSpec 26) c)
    let s := liftInd (emaSpec 9) m
    let df1 := setCol df "MACD" (numCells m)
    let df2 := setCol df1 "MACD_Signal" (numCells s)
    .ok (setCol df2 "MACD_Diff" (numCells (optZipSub m s)))
  | .error e => .error e

/-- Lines 95–97: the stochastic oscillator reads High, Low and Close in
that order (a missing column raises before either assignment) and its
%K and %D columns are assigned. -/
def stepStoch (df : DataFrame) : Except String DataFrame :=
  match getNumCol df "High" with
  | .error e => .error e
  | .ok hs =>
    match getNumCol df "Low" with
    | .error e => .error e
    | .ok ls =>
      match getNumCol df "Close" with
      | .error e => .error e
      | .ok cs =>
        let k := stochOpt hs ls cs
        let df1 := setCol df "Stoch_K" (numCells k)
        .ok (setCol df1 "Stoch_D" (numCells (smaOpt 3 k)))

/-- Line 100: the 14-bar average true range column. -/
def stepATR (df : DataFrame) : Except String DataFrame :=
  match getNumCol df "High" with
  | .error e => .error e
  | .ok hs =>
    match getNumCol df "Low" with
    | .error e => .error e
    | .ok ls =>
      match getNumCol df "Close" with
      | .error e => .error e
      | .ok cs => .ok (setCol df "ATR" (numCells (atrOpt hs ls cs)))

/-- Lines 103–105: `df['Signal'] = 'HOLD'`, then the BUY mask where
RSI < 30, then the SELL mask where RSI > 70, each statement reading the
current frame. -/
def stepSignal (df : DataFrame) : Except String DataFrame :=
  let df1 := setCol df "Signal" (List.replicate df.nrows (some (Val.str "HOLD")))
  match getNumCol df1 "RSI" with
  | .error e => .error e
  | .ok r =>
    match getColCells df1 "Signal" with
    | .error e => .error e
    | .ok cur =>
      let df2 := setCol df1 "Signal" (locSetLt cur r 30 (Val.str "BUY"))
      match getColCells df2 "Signal" with
      | .error e => .error e
      | .ok cur2 => .ok (setCol df2 "Signal" (locSetGt cur2 r 70 (Val.str "SELL")))

/-- The statements of the `try` block of `calculate_indicators`, in
source order. -/
def indicatorSteps (sq : ℚ → ℚ) : List (DataFrame → Except String DataFrame) :=
  [stepSMA20, stepSMA50, stepEMA12, stepEMA26, stepBB sq,
   stepRSI, stepMACD, stepStoch, stepATR, stepSignal]

/-- Run the statements against the one mutable frame.  On an exception
the `except` branch of the source logs and returns `df` — the frame as
mutated so far, since every completed assignment already acted on the
caller's object; the Bool is `true` when no exception occurred. -/
def runSteps : List (DataFrame → Except String DataFrame) → DataFrame → DataFrame × Bool
  | [], df => (df, true)
  | s :: rest, df =>
    match s df with
    | .ok df2 => runSteps rest df2
    | .error _ => (df, false)

/-- `ForexDataFetcher.calculate_indicators` with its result and the
caught-exception flag: `None` and empty frames pass through untouched
(lines 69–70), otherwise the statement sequence runs on the frame. -/
def calcRun (sq : ℚ → ℚ) (df? : Option DataFrame) : Option DataFrame × Bool :=
  match df? with
  | none => (none, true)
  | some df =>
    if dfEmpty df then (some df, true)
    else
      let r := runSteps (indicatorSteps sq) df
      (some r.1, r.2)

/-- The value `calculate_indicators` returns.  Because the statements
mutate the argument in place, this is also the state of the caller's
table after the call. -/
def calculate_indicators (sq : ℚ → ℚ) (df? : Option DataFrame) : Option DataFrame :=
  (calcRun sq df?).1

/-- The closing prices of a bar list. -/
def closesOf (bars : List Bar) : List ℚ := bars.map Bar.c

/-- The augmented frame a successful run produces on a clean OHLCV
input: the five input columns followed by the fifteen derived columns in
assignment order. -/
def augFrame (sq : ℚ → ℚ) (bars : List Bar) : DataFrame :=
  let cl := closesOf bars
  let hs := (bars.map Bar.h).map (some (α := ℚ))
  let ls := (bars.map Bar.l).map (some (α := ℚ))
  let cs := cl.map (some (α := ℚ))
  let m := optZipSub (emaSpec 12 cl) (emaSpec 26 cl)
  let s := liftInd (emaSpec 9) m
  let k := stochOpt hs ls cs
  ⟨bars.length,
    [("Open", numColOf Bar.o bars), ("High", numColOf Bar.h bars),
     ("Low", numColOf Bar.l bars), ("Close", numColOf Bar.c bars),
     ("Volume", numColOf Bar.v bars),
     ("SMA_20", numCells (sma 20 cl)), ("SMA_50", numCells (sma 50 cl)),
     ("EMA_12", numCells (emaSpec 12 cl)), ("EMA_26", numCells (emaSpec 26 cl)),
     ("BB_High", numCells (bollingerH sq 20 2 cl)), ("BB_Mid", numCells (sma 20 cl)),
     ("BB_Low", numCells (bollingerL sq 20 2 cl)),
     ("RSI", numCells (rsiSpec 14 cl)),
     ("MACD", numCells m), ("MACD_Signal", numCells s),
     ("MACD_Diff", numCells (optZipSub m s)),
     ("Stoch_K", numCells k), ("Stoch_D", numCells (smaOpt 3 k)),
     ("ATR", numCells (atrOpt hs ls cs)),
     ("Signal",
      locSetGt
        (locSetLt (List.replicate bars.length (some (Val.str "HOLD")))
          (rsiSpec 14 cl) 30 (Val.str "BUY"))
        (rsiSpec 14 cl) 70 (Val.str "SELL"))]⟩

/-! The summary-statistics block of `app.py` (lines 84–93): the guard
`if df is None or df.empty`, then the reads
`last_close = df['Close'].iloc[-1]` and `prev_close = df['Close'].iloc[-2]`
and the derived change figures.  An uncaught exception in this block
crashes the Streamlit page. -/

/-- What the summary block of the page produces: the visible error
state, the five metrics (carried as options, a NaN close renders as
NaN), or an uncaught exception that crashes the page. -/
inductive PageResult where
  | errorState
  | stats (lastClose prevClose change changePct : Option ℚ)
  | exn (msg : String)
deriving DecidableEq, Repr

/-- Python negative indexing `series.iloc[-k]`: the element `k` places
from the end when the series has at least `k` elements, an `IndexError`
otherwise. -/
def ilocNeg (xs : List (Option ℚ)) (k : ℕ) : Except String (Option ℚ) :=
  if 1 ≤ k ∧ k ≤ xs.length then .ok (xs.getD (xs.length - k) none)
  else .error "IndexError"

/-- NaN-propagating arithmetic of the change figures.  Division by an
exact zero previous close would give a float infinity in the source; no
claim depends on that cell and the rational convention value stands in. -/
def optArith (f : ℚ → ℚ → ℚ) : Option ℚ → Option ℚ → Option ℚ
  | some a, some b => some (f a b)
  | _, _ => none

/-- Lines 84–93 of `app.py`: only `None` and emptiness are guarded; a
table that passes the guard has `Close` read at positions −1 and −2. -/
def summarySection (df? : Option DataFrame) : PageResult :=
  match df? with
  | none => .errorState
  | some df =>
    if dfEmpty df then .errorState
    else
      match getNumCol df "Close" with
      | .error e => .exn e
      | .ok closes =>
        match ilocNeg closes 1 with
        | .error e => .exn e
        | .ok lastC =>
          match ilocNeg closes 2 with
          | .error e => .exn e
          | .ok prevC =>
            let change := optArith (fun a b => a - b) lastC prevC
            let changePct := optArith (fun c p => c / p * 100) change prevC
            .stats lastC prevC change changePct

/-! The `fetch_forex_data` model (lines 38–57).  The call to
`yf.download` is the external provider; its result is a raw table of
unknown column names, here column-major.  An exception anywhere in the
`try` block — including the forced rename `data.columns = [...]`, which
raises when the column count is not five — is caught and reported as
`None`, as is an empty download. -/

/-- A raw provider table: a row count and its columns, column-major,
cells possibly missing. -/
structure RawFrame where
  nrows : ℕ
  cols : List (List (Option ℚ))
deriving DecidableEq, Repr

/-- Pandas emptiness of the raw download. -/
def rawEmpty (r : RawFrame) : Bool :=
  r.nrows == 0 || r.cols.isEmpty

/-- Row `i` of the raw table has no missing cell. -/
def rowComplete (r : RawFrame) (i : ℕ) : Bool :=
  r.cols.all (fun c => (c.getD i none).isSome)

/-- The row indices `dropna` keeps. -/
def keptRows (r : RawFrame) : List ℕ :=
  (List.range r.nrows).filter (rowComplete r)

/-- The canonical column names forced onto the download. -/
def ohlcvNames : List String := ["Open", "High", "Low", "Close", "Volume"]

/-- `ForexDataFetcher.fetch_forex_data`: `None` when the download raised
or came back empty or the rename failed; otherwise the renamed,
NaN-row-free frame. -/
def fetch_forex_data (download? : Option RawFrame) : Option DataFrame :=
  match download? with
  | none => none
  | some data =>
    if rawEmpty data then none
    else if data.cols.length != 5 then none
    else
      let kept := keptRows data
      some ⟨kept.length,
        List.zip ohlcvNames
          (data.cols.map (fun c => kept.map (fun i => Option.map Val.num (c.getD i none))))⟩

/-! Concrete inputs used by the counterexample and the witnesses. -/

/-- A minimal clean one-bar input. -/
def oneBar : List Bar := [⟨1, 2, 1, 2, 5⟩]

/-- Fourteen identical bars whose 14-bar High range and Low range meet:
every High and every Low equals 2. -/
def flatBars : List Bar := List.replicate 14 ⟨2, 2, 2, 2, 1⟩

/-- Thirty-four identical bars: enough history for the MACD signal line
(EMA(26) seeded at row 26, EMA(9) of the MACD series seeded nine MACD
values later) to be defined at the last row. -/
def constBars : List Bar := List.replicate 34 ⟨1, 1, 1, 1, 1⟩

/-- A one-row table carrying Open and Close but neither High nor Low:
the computation reaches the stochastic step and raises `KeyError` there,
after eleven derived columns were already assigned. -/
def dfNoHigh : DataFrame :=
  ⟨1, [("Open", [some (Val.num 1)]), ("Close", [some (Val.num 2)])]⟩

/-- A table with columns but no rows. -/
def dfZeroRows : DataFrame :=
  ⟨0, [("Open", []), ("High", []), ("Low", []), ("Close", []), ("Volume", [])]⟩

/-- A one-row table with only a Close column, for the one-bar page
crash. -/
def dfOneRow : DataFrame := ⟨1, [("Close", [some (Val.num 1)])]⟩

/-- The frame of the pipeline result, `none` collapsing to the trivial
frame; `calcRun` on a `some` input always yields a `some` table, so no
information is lost where this is used. -/
def getDF (r : Option DataFrame) : DataFrame := r.getD ⟨0, []⟩

/-- A raw five-column download with two rows, the second missing its
Open cell. -/
def rawSample : RawFrame :=
  ⟨2, [[some 1, none], [some 2, some 2], [some 3, some 3], [some 4, some 4], [some 5, some 5]]⟩

/-- What `fetch_forex_data` makes of `rawSample`: renamed columns, the
incomplete second row dropped. -/
def fetchedSample : DataFrame :=
  ⟨1, [("Open", [some (Val.num 1)]), ("High", [some (Val.num 2)]),
       ("Low", [some (Val.num 3)]), ("Close", [some (Val.num 4)]),
       ("Volume", [some (Val.num 5)])]⟩

/-! Basic lemmas about the series and frame helpers. -/

theorem cellsToNum_numCells (xs : List (Option ℚ)) :
    cellsToNum (numCells xs) = Except.ok xs := by
  induction xs with
  | nil => rfl
  | cons x rest ih =>
    cases x with
    | none =>
      show cellsToNum (none :: numCells rest) = _
      simp [cellsToNum, ih]
    | some q =>
      show cellsToNum (some (Val.num q) :: numCells rest) = _
      simp [cellsToNum, ih]

theorem leadNones_map_some (l : List ℚ) : leadNones (l.map some) = 0 := by
  cases l <;> rfl

theorem all_isSome_map_some (l : List ℚ) : (l.map some).all Option.isSome = true := by
  simp [List.all_eq_true]

theorem reduceOption_map_some (l : List ℚ) : (l.map some).reduceOption = l := by
  induction l with
  | nil => rfl
  | cons x rest ih => simp [List.reduceOption_cons_of_some, ih]

theorem liftInd_map_some (f : List ℚ → List (Option ℚ)) (l : List ℚ) :
    liftInd f (l.map some) = f l := by
  simp [liftInd, cleanTail, leadNones_map_some, all_isSome_map_some, reduceOption_map_some]

theorem liftInd_map_comp_some (f : List ℚ → List (Option ℚ)) (g : Bar → ℚ)
    (bars : List Bar) : liftInd f (List.map (some ∘ g) bars) = f (List.map g bars) := by
  rw [← List.map_map]
  exact liftInd_map_some f _

/-- Evaluation of the whole statement sequence on a clean OHLCV frame:
every step succeeds and the columns come out in assignment order. -/
theorem runSteps_ohlcv (sq : ℚ → ℚ) (bars : List Bar) :
    runSteps (indicatorSteps sq) (ohlcvFrame bars) = (augFrame sq bars, true) := by
  simp [runSteps, indicatorSteps, stepSMA20, stepSMA50, stepEMA12, stepEMA26, stepBB,
    stepRSI, stepMACD, stepStoch, stepATR, stepSignal, getNumCol, getColCells,
    setCol, setColIn, ohlcvFrame, augFrame, numColOf, cellsToNum_numCells,
    liftInd_map_some, liftInd_map_comp_some, List.lookup, closesOf]

theorem dfEmpty_ohlcv (bars : List Bar) : dfEmpty (ohlcvFrame bars) = (bars.length == 0) := by
  simp [dfEmpty, ohlcvFrame]

/-- On a nonempty clean OHLCV frame the computation succeeds and both
the returned table and the caller's mutated table are the augmented
frame. -/
theorem calcRun_ohlcv (sq : ℚ → ℚ) (bars : List Bar) (h : bars ≠ []) :
    calcRun sq (some (ohlcvFrame bars)) = (some (augFrame sq bars), true) := by
  have hlen : (bars.length == 0) = false := by
    simpa using fun hh => h (List.length_eq_zero.mp hh)
  simp [calcRun, dfEmpty_ohlcv, hlen, runSteps_ohlcv sq bars]

theorem numCells_getD (xs : List (Option ℚ)) (i : ℕ) :
    (numCells xs).getD i none = Option.map Val.num (xs.getD i none) := by
  rw [List.getD_eq_getElem?_getD, List.getD_eq_getElem?_getD, numCells, List.getElem?_map]
  cases xs[i]? <;> rfl

theorem numCells_getElem? (xs : List (Option ℚ)) (i : ℕ) :
    (numCells xs)[i]?.getD none = Option.map Val.num (xs[i]?.getD none) := by
  rw [numCells, List.getElem?_map]
  cases xs[i]? <;> rfl

theorem rangeMap_getD {α : Type} (g : ℕ → Option α) (len i : ℕ) (hi : i < len) :
    ((List.range len).map g).getD i none = g i := by
  rw [List.getD_eq_getElem?_getD, List.getElem?_map]
  simp [List.getElem?_range, hi]

theorem getD_map_some (l : List ℚ) (i : ℕ) :
    ((l.map some).getD i none) = l[i]? := by
  rw [List.getD_eq_getElem?_getD, List.getElem?_map]
  cases l[i]? <;> rfl

/-! Claim theorems. -/

/-- C4: for a `None` or zero-row input, `calculate_indicators` returns
that input unchanged rather than raising or producing a different
table. -/
theorem C4_absent_or_empty_passthrough (sq : ℚ → ℚ) :
    calculate_indicators sq none = none ∧
    ∀ df : DataFrame, df.nrows = 0 → calculate_indicators sq (some df) = some df := by
  refine ⟨rfl, fun df h => ?_⟩
  simp [calculate_indicators, calcRun, dfEmpty, h]

theorem C4_absent_or_empty_passthrough_witness :
    calculate_indicators id none = none ∧
    calculate_indicators id (some dfZeroRows) = some dfZeroRows :=
  ⟨(C4_absent_or_empty_passthrough id).1,
   (C4_absent_or_empty_passthrough id).2 dfZeroRows rfl⟩

/-- C2, evaluated at the failing input: on a one-row table with Open and
Close but no High column, the stochastic step raises `KeyError`; the
`except` branch then hands the caller a table that does carry the eleven
derived columns assigned before the failure (SMA_20 through MACD_Diff)
and no Stoch_K — a partially augmented table, not the original one, so
the claimed failure semantics do not hold on the code. -/
theorem C2_partial_augmentation_on_failure :
    (calcRun id (some dfNoHigh)).2 = false ∧
    hasCol (getDF (calcRun id (some dfNoHigh)).1) "SMA_20" = true ∧
    hasCol (getDF (calcRun id (some dfNoHigh)).1) "MACD_Diff" = true ∧
    hasCol (getDF (calcRun id (some dfNoHigh)).1) "Stoch_K" = false ∧
    getDF (calcRun id (some dfNoHigh)).1 ≠ dfNoHigh := by
  decide

/-- C3, counterexample: the caller's table is not unchanged after the
call.  The statements of `calculate_indicators` assign into the very
frame the caller passed (the returned frame is that same object), and
after a call on a clean one-bar table that table carries an `SMA_20`
column the input did not have. -/
theorem C3_caller_table_mutated :
    calculate_indicators id (some (ohlcvFrame oneBar)) ≠ some (ohlcvFrame oneBar) ∧
    hasCol (getDF (calculate_indicators id (some (ohlcvFrame oneBar)))) "SMA_20" = true ∧
    hasCol (ohlcvFrame oneBar) "SMA_20" = false := by
  decide

/-- C3, amended: on a nonempty clean OHLCV table the computation is a
pure function of the input bars and never alters the five input columns
or the row count — they sit unchanged as the first five columns of the
result — but it augments the caller's table in place: after the call the
caller's table is the result, the input columns followed by the fifteen
derived columns in assignment order. -/
theorem C3_pure_value_inplace_augmentation (sq : ℚ → ℚ) (bars : List Bar)
    (h : bars ≠ []) :
    calcRun sq (some (ohlcvFrame bars)) = (some (augFrame sq bars), true) ∧
    (augFrame sq bars).cols.map Prod.fst =
      ["Open", "High", "Low", "Close", "Volume",
       "SMA_20", "SMA_50", "EMA_12", "EMA_26", "BB_High", "BB_Mid", "BB_Low",
       "RSI", "MACD", "MACD_Signal", "MACD_Diff", "Stoch_K", "Stoch_D", "ATR",
       "Signal"] ∧
    (augFrame sq bars).cols.take 5 = (ohlcvFrame bars).cols ∧
    (augFrame sq bars).nrows = bars.length := by
  refine ⟨calcRun_ohlcv sq bars h, ?_, ?_, rfl⟩ <;> simp [augFrame, ohlcvFrame]

theorem C3_pure_value_inplace_augmentation_witness :
    calcRun id (some (ohlcvFrame oneBar)) = (some (augFrame id oneBar), true) :=
  (C3_pure_value_inplace_augmentation id oneBar (by decide)).1

/-- C9: the summary block of the page guards only against an absent or
empty table; a one-row table passes the guard and the previous-close
read `df['Close'].iloc[-2]` raises `IndexError`, crashing the page
instead of rendering the error state. -/
theorem C9_one_row_page_crash (df : DataFrame) (q : ℚ)
    (h1 : df.nrows = 1) (h2 : df.cols.lookup "Close" = some [some (Val.num q)]) :
    summarySection (some df) = PageResult.exn "IndexError" := by
  have hne : df.cols.isEmpty = false := by
    cases hc : df.cols with
    | nil => rw [hc] at h2; simp [List.lookup] at h2
    | cons a rest => simp
  have hempty : dfEmpty df = false := by simp [dfEmpty, h1, hne]
  simp [summarySection, hempty, getNumCol, getColCells, h2, cellsToNum, ilocNeg]

theorem C9_one_row_page_crash_witness :
    summarySection (some dfOneRow) = PageResult.exn "IndexError" :=
  C9_one_row_page_crash dfOneRow 1 rfl (by decide)

/-- C10: every table `fetch_forex_data` returns (rather than `None`) has
its columns named exactly Open, High, Low, Close, Volume in that order
and no missing cell anywhere: the rename fails — and is caught as
`None` — unless the download has exactly five columns, and `dropna`
keeps only the rows every column has a value for. -/
theorem C10_fetch_result_invariant (d : Option RawFrame) (t : DataFrame)
    (hft : fetch_forex_data d = some t) :
    t.cols.map Prod.fst = ["Open", "High", "Low", "Close", "Volume"] ∧
    ∀ p ∈ t.cols, ∀ cell ∈ p.2, ∃ q : ℚ, cell = some (Val.num q) := by
  cases d with
  | none => simp [fetch_forex_data] at hft
  | some data =>
    rw [fetch_forex_data] at hft
    by_cases he : rawEmpty data = true
    · simp [he] at hft
    · rw [if_neg (by simp [he])] at hft
      by_cases hc : data.cols.length = 5
      · rw [if_neg (by simp [hc])] at hft
        have ht := (Option.some_injective _ hft).symm
        constructor
        · rw [ht]
          show (List.zip ohlcvNames _).map Prod.fst = _
          rw [List.map_fst_zip]
          · rfl
          · simp [ohlcvNames, hc]
        · intro p hp cell hcell
          rw [ht] at hp
          obtain ⟨c, hcmem, hsnd⟩ := by
            simpa using (List.of_mem_zip hp).2
          rw [← hsnd] at hcell
          obtain ⟨i, hikept, hcelli⟩ := by simpa using hcell
          have hcompl : rowComplete data i = true := (List.mem_filter.mp hikept).2
          have hsome : (c.getD i none).isSome = true :=
            (List.all_eq_true.mp hcompl) c hcmem
          obtain ⟨q, hq⟩ := Option.isSome_iff_exists.mp hsome
          rw [List.getD_eq_getElem?_getD] at hq
          exact ⟨q, by rw [← hcelli, hq]; rfl⟩
      · simp [hc] at hft

theorem C10_fetch_result_invariant_witness :
    fetchedSample.cols.map Prod.fst = ["Open", "High", "Low", "Close", "Volume"] ∧
    ∀ p ∈ fetchedSample.cols, ∀ cell ∈ p.2, ∃ q : ℚ, cell = some (Val.num q) :=
  C10_fetch_result_invariant (some rawSample) fetchedSample (by decide)

theorem rsiSpec_length (n : ℕ) (xs : List ℚ) : (rsiSpec n xs).length = xs.length := by
  simp [rsiSpec]

theorem zipWith_getD {α β γ : Type} (f : α → β → γ) (d1 : α) (d2 : β) (d3 : γ) :
    ∀ (a : List α) (b : List β) (i : ℕ), i < a.length → i < b.length →
      (List.zipWith f a b).getD i d3 = f (a.getD i d1) (b.getD i d2)
  | [], _, i, ha, _ => by simp at ha
  | _ :: _, [], i, _, hb => by simp at hb
  | x :: xs, y :: ys, 0, _, _ => rfl
  | x :: xs, y :: ys, i + 1, ha, hb => by
    simpa using zipWith_getD f d1 d2 d3 xs ys i (by simpa using ha) (by simpa using hb)

theorem getD_replicate_lt {α : Type} (a d : α) (n i : ℕ) (h : i < n) :
    (List.replicate n a).getD i d = a := by
  rw [List.getD_eq_getElem?_getD]
  simp [List.getElem?_replicate, h]

/-- Pointwise reading of the Signal column construction: SELL where the
RSI entry exceeds 70, else BUY where it is below 30, else HOLD — with a
NaN entry failing both masks. -/
theorem signal_getD (r : List (Option ℚ)) (n i : ℕ) (hn : r.length = n) (hi : i < n) :
    (locSetGt
      (locSetLt (List.replicate n (some (Val.str "HOLD"))) r 30 (Val.str "BUY"))
      r 70 (Val.str "SELL")).getD i none =
    (if optGt (r.getD i none) 70 then some (Val.str "SELL")
     else if optLt (r.getD i none) 30 then some (Val.str "BUY")
     else some (Val.str "HOLD")) := by
  have hlen1 :
      (locSetLt (List.replicate n (some (Val.str "HOLD"))) r 30 (Val.str "BUY")).length = n := by
    simp [locSetLt, hn]
  rw [locSetGt, zipWith_getD _ none none none _ _ i (by omega) (by omega)]
  rw [locSetLt, zipWith_getD _ none none none _ _ i (by simp [hn]; omega) (by omega)]
  rw [getD_replicate_lt _ _ _ _ hi]

/-- C1: in a successfully augmented table the Signal cell is BUY exactly
when the row's RSI cell holds a value below 30, SELL exactly when it
holds a value above 70, and HOLD in every other case — including every
row whose RSI cell is undefined, since a NaN fails both masks. -/
theorem C1_signal_iff_rsi_thresholds (sq : ℚ → ℚ) (bars : List Bar) (hne : bars ≠ [])
    (out : DataFrame)
    (hout : calculate_indicators sq (some (ohlcvFrame bars)) = some out)
    (i : ℕ) (hi : i < bars.length) :
    (cellAt out "Signal" i = some (some (Val.str "BUY")) ↔
      ∃ v : ℚ, cellAt out "RSI" i = some (some (Val.num v)) ∧ v < 30) ∧
    (cellAt out "Signal" i = some (some (Val.str "SELL")) ↔
      ∃ v : ℚ, cellAt out "RSI" i = some (some (Val.num v)) ∧ 70 < v) ∧
    (cellAt out "Signal" i = some (some (Val.str "HOLD")) ↔
      ∀ v : ℚ, cellAt out "RSI" i = some (some (Val.num v)) → 30 ≤ v ∧ v ≤ 70) := by
  have hout2 : out = augFrame sq bars := by
    have hrun := calcRun_ohlcv sq bars hne
    rw [calculate_indicators, hrun] at hout
    exact (Option.some_injective _ hout).symm
  subst hout2
  have hr : cellAt (augFrame sq bars) "RSI" i
      = some (Option.map Val.num ((rsiSpec 14 (closesOf bars)).getD i none)) := by
    simp [cellAt, augFrame, numCells_getElem?, List.lookup]
  have hs : cellAt (augFrame sq bars) "Signal" i
      = some ((locSetGt
          (locSetLt (List.replicate bars.length (some (Val.str "HOLD")))
            (rsiSpec 14 (closesOf bars)) 30 (Val.str "BUY"))
          (rsiSpec 14 (closesOf bars)) 70 (Val.str "SELL")).getD i none) := by
    simp [cellAt, augFrame, List.lookup]
  rw [hr, hs, signal_getD _ bars.length i (by simp [rsiSpec_length, closesOf]) hi]
  cases hx : (rsiSpec 14 (closesOf bars)).getD i none with
  | none => simp [optGt, optLt]
  | some v =>
    by_cases h70 : 70 < v
    · have h30 : ¬v < 30 := by linarith
      simp [optGt, optLt, h70, h30]
    · by_cases h30 : v < 30
      · simp [optGt, optLt, h70, h30]
      · rw [show optGt (some v) 70 = false by simp [optGt, h70]]
        rw [show optLt (some v) 30 = false by simp [optLt, h30]]
        simp only [Bool.false_eq_true, if_false]
        refine ⟨by simp [h30], by simp [h70], by simp [not_lt.mp h30, not_lt.mp h70]⟩

theorem C1_signal_iff_rsi_thresholds_witness :
    (cellAt (augFrame id oneBar) "Signal" 0 = some (some (Val.str "BUY")) ↔
      ∃ v : ℚ, cellAt (augFrame id oneBar) "RSI" 0 = some (some (Val.num v)) ∧ v < 30) ∧
    (cellAt (augFrame id oneBar) "Signal" 0 = some (some (Val.str "SELL")) ↔
      ∃ v : ℚ, cellAt (augFrame id oneBar) "RSI" 0 = some (some (Val.num v)) ∧ 70 < v) ∧
    (cellAt (augFrame id oneBar) "Signal" 0 = some (some (Val.str "HOLD")) ↔
      ∀ v : ℚ, cellAt (augFrame id oneBar) "RSI" 0 = some (some (Val.num v)) → 30 ≤ v ∧ v ≤ 70) :=
  C1_signal_iff_rsi_thresholds id oneBar (by decide) (augFrame id oneBar) (by decide) 0
    (by decide)

theorem rangeMap_getElem? {α : Type} (g : ℕ → Option α) (len i : ℕ) (hi : i < len) :
    ((List.range len).map g)[i]?.getD none = g i := by
  rw [List.getElem?_map]
  simp [List.getElem?_range, hi]

theorem closesOf_length (bars : List Bar) : (closesOf bars).length = bars.length := by
  simp [closesOf]

theorem cellAt_aug_SMA20 (sq : ℚ → ℚ) (bars : List Bar) (i : ℕ) (hi : i < bars.length) :
    cellAt (augFrame sq bars) "SMA_20" i
      = some (Option.map Val.num (smaAt 20 (closesOf bars) i)) := by
  have hi2 : i < (closesOf bars).length := by rw [closesOf_length]; exact hi
  simp [cellAt, augFrame, List.lookup, numCells_getElem?, sma, List.getElem?_range, hi2]

/-- C5: the SMA_20 column of a successfully augmented table is undefined
(`some none`, a missing value, never a zero) at every row when fewer
than 20 bars exist, undefined at the first 19 rows otherwise, and from
row 20 on holds the arithmetic mean of the trailing 20 closes inclusive
of the current row. -/
theorem C5_sma20_window (sq : ℚ → ℚ) (bars : List Bar) (hne : bars ≠ [])
    (out : DataFrame)
    (hout : calculate_indicators sq (some (ohlcvFrame bars)) = some out)
    (i : ℕ) (hi : i < bars.length) :
    (bars.length < 20 → cellAt out "SMA_20" i = some none) ∧
    (20 ≤ bars.length →
      (i + 1 < 20 → cellAt out "SMA_20" i = some none) ∧
      (20 ≤ i + 1 → cellAt out "SMA_20" i =
        some (some (Val.num
          ((((closesOf bars).take (i + 1)).drop (i + 1 - 20)).sum / 20))))) := by
  have hout2 : out = augFrame sq bars := by
    have hrun := calcRun_ohlcv sq bars hne
    rw [calculate_indicators, hrun] at hout
    exact (Option.some_injective _ hout).symm
  subst hout2
  rw [cellAt_aug_SMA20 sq bars i hi]
  refine ⟨fun hshort => ?_, fun _ => ⟨fun hlt => ?_, fun hge => ?_⟩⟩
  · rw [smaAt, if_neg (by omega)]
    rfl
  · rw [smaAt, if_neg (by omega)]
    rfl
  · rw [smaAt, if_pos hge]
    norm_num

theorem C5_sma20_window_witness :
    (oneBar.length < 20 → cellAt (augFrame id oneBar) "SMA_20" 0 = some none) ∧
    (20 ≤ oneBar.length →
      (0 + 1 < 20 → cellAt (augFrame id oneBar) "SMA_20" 0 = some none) ∧
      (20 ≤ 0 + 1 → cellAt (augFrame id oneBar) "SMA_20" 0 =
        some (some (Val.num
          ((((closesOf oneBar).take (0 + 1)).drop (0 + 1 - 20)).sum / 20))))) :=
  C5_sma20_window id oneBar (by decide) (augFrame id oneBar) (by decide) 0 (by decide)

theorem getD_some_lt_length {α : Type} (xs : List (Option α)) (i : ℕ) (v : α)
    (h : xs.getD i none = some v) : i < xs.length := by
  by_contra hge
  rw [List.getD_eq_default _ _ (by omega)] at h
  exact Option.noConfusion h

theorem map_num_eq_some_num (x : Option ℚ) (a : ℚ)
    (h : Option.map Val.num x = some (Val.num a)) : x = some a := by
  cases x with
  | none => simp at h
  | some q => simp at h; rw [h]

theorem optZipSub_getD (a b : List (Option ℚ)) (i : ℕ) (x y : ℚ)
    (hx : a.getD i none = some x) (hy : b.getD i none = some y) :
    (optZipSub a b).getD i none = some (x - y) := by
  have ha := getD_some_lt_length a i x hx
  have hb := getD_some_lt_length b i y hy
  rw [optZipSub, zipWith_getD optSub none none none a b i ha hb, hx, hy]
  rfl

theorem cellAt_aug_MACD (sq : ℚ → ℚ) (bars : List Bar) (i : ℕ) :
    cellAt (augFrame sq bars) "MACD" i
      = some (Option.map Val.num ((optZipSub (emaSpec 12 (closesOf bars))
          (emaSpec 26 (closesOf bars))).getD i none)) := by
  simp [cellAt, augFrame, List.lookup, numCells_getElem?, List.getD_eq_getElem?_getD]

theorem cellAt_aug_MACDSignal (sq : ℚ → ℚ) (bars : List Bar) (i : ℕ) :
    cellAt (augFrame sq bars) "MACD_Signal" i
      = some (Option.map Val.num ((liftInd (emaSpec 9)
          (optZipSub (emaSpec 12 (closesOf bars))
            (emaSpec 26 (closesOf bars)))).getD i none)) := by
  simp [cellAt, augFrame, List.lookup, numCells_getElem?, List.getD_eq_getElem?_getD]

theorem cellAt_aug_MACDDiff (sq : ℚ → ℚ) (bars : List Bar) (i : ℕ) :
    cellAt (augFrame sq bars) "MACD_Diff" i
      = some (Option.map Val.num ((optZipSub
          (optZipSub (emaSpec 12 (closesOf bars)) (emaSpec 26 (closesOf bars)))
          (liftInd (emaSpec 9)
            (optZipSub (emaSpec 12 (closesOf bars))
              (emaSpec 26 (closesOf bars))))).getD i none)) := by
  simp [cellAt, augFrame, List.lookup, numCells_getElem?, List.getD_eq_getElem?_getD]

/-- C6: wherever a successfully augmented table has both MACD and
MACD_Signal defined, its MACD_Diff cell equals their difference — exact
rational equality, the embedding's counterpart of floating-point
epsilon. -/
theorem C6_macd_diff_relation (sq : ℚ → ℚ) (bars : List Bar) (hne : bars ≠ [])
    (out : DataFrame)
    (hout : calculate_indicators sq (some (ohlcvFrame bars)) = some out)
    (i : ℕ) (a b : ℚ)
    (ha : cellAt out "MACD" i = some (some (Val.num a)))
    (hb : cellAt out "MACD_Signal" i = some (some (Val.num b))) :
    cellAt out "MACD_Diff" i = some (some (Val.num (a - b))) := by
  have hout2 : out = augFrame sq bars := by
    have hrun := calcRun_ohlcv sq bars hne
    rw [calculate_indicators, hrun] at hout
    exact (Option.some_injective _ hout).symm
  subst hout2
  rw [cellAt_aug_MACD] at ha
  rw [cellAt_aug_MACDSignal] at hb
  have ha2 := map_num_eq_some_num _ _ (Option.some_injective _ ha)
  have hb2 := map_num_eq_some_num _ _ (Option.some_injective _ hb)
  rw [cellAt_aug_MACDDiff, optZipSub_getD _ _ i a b ha2 hb2]
  rfl

theorem C6_macd_diff_relation_witness :
    cellAt (augFrame id constBars) "MACD_Diff" 33 = some (some (Val.num (0 - 0))) :=
  C6_macd_diff_relation id constBars (by decide) (augFrame id constBars)
    (by rw [calculate_indicators, calcRun_ohlcv id constBars (by decide)])
    33 0 0
    (by
      rw [cellAt_aug_MACD]
      norm_num [constBars, closesOf, emaSpec, emaRec, optZipSub, optSub, List.replicate])
    (by
      rw [cellAt_aug_MACDSignal]
      norm_num [constBars, closesOf, emaSpec, emaRec, optZipSub, optSub, List.replicate,
        liftInd, cleanTail, leadNones])

theorem emaRec_length (a y : ℚ) (l : List ℚ) : (emaRec a y l).length = l.length := by
  induction l generalizing y with
  | nil => rfl
  | cons x rest ih => simp [emaRec, ih]

theorem emaRec_getD_succ (a : ℚ) :
    ∀ (y : ℚ) (l : List ℚ) (k : ℕ), k + 1 < l.length →
      (emaRec a y l).getD (k + 1) 0
        = a * l.getD (k + 1) 0 + (1 - a) * (emaRec a y l).getD k 0
  | _, [], k, hk => by simp at hk
  | _, [_], k, hk => by simp at hk
  | y, x :: r0 :: rest, 0, _ => by simp [emaRec]
  | y, x :: r0 :: rest, k + 1, hk => by
    have ih := emaRec_getD_succ a (a * x + (1 - a) * y) (r0 :: rest) k (by simpa using hk)
    simpa [emaRec] using ih

theorem getD_drop (xs : List ℚ) (n k : ℕ) :
    (xs.drop n).getD k (0 : ℚ) = xs.getD (n + k) 0 := by
  rw [List.getD_eq_getElem?_getD, List.getD_eq_getElem?_getD, List.getElem?_drop]

theorem map_some_getD (l : List ℚ) (k : ℕ) (hk : k < l.length) :
    (l.map (some (α := ℚ))).getD k none = some (l.getD k 0) := by
  rw [List.getD_eq_getElem?_getD, List.getElem?_map, List.getElem?_eq_getElem hk,
    List.getD_eq_getElem _ _ hk]
  rfl

theorem emaSpec_getD_before (span : ℕ) (xs : List ℚ) (i : ℕ)
    (hi : i < xs.length) (hlt : i + 1 < span) :
    (emaSpec span xs).getD i none = none := by
  simp only [emaSpec]
  by_cases hlen : xs.length < span
  · rw [if_pos hlen, getD_replicate_lt _ _ _ _ hi]
  · rw [if_neg hlen, List.getD_append _ _ _ _ (by simp; omega),
      getD_replicate_lt _ _ _ _ (by omega)]

theorem emaSpec_getD_seed (span : ℕ) (hspan : 1 ≤ span) (xs : List ℚ)
    (hlen : span ≤ xs.length) :
    (emaSpec span xs).getD (span - 1) none = some ((xs.take span).sum / span) := by
  simp only [emaSpec]
  rw [if_neg (by omega), List.getD_append_right _ _ _ _ (by simp)]
  simp

theorem emaSpec_getD_tail (span : ℕ) (xs : List ℚ) (hlen : span ≤ xs.length) (j : ℕ) :
    (emaSpec span xs).getD (span - 1 + j) none
      = (some ((xs.take span).sum / span) ::
          (emaRec (2 / ((span : ℚ) + 1)) ((xs.take span).sum / span)
            (xs.drop span)).map some).getD j none := by
  simp only [emaSpec]
  rw [if_neg (by omega), List.getD_append_right _ _ _ _ (by simp)]
  simp

theorem emaSpec_getD_rec (span : ℕ) (hspan : 1 ≤ span) (xs : List ℚ) (i : ℕ)
    (hge : span ≤ i) (hi : i < xs.length) :
    ∃ p, (emaSpec span xs).getD (i - 1) none = some p ∧
      (emaSpec span xs).getD i none =
        some ((2 / ((span : ℚ) + 1)) * xs.getD i 0
          + (1 - 2 / ((span : ℚ) + 1)) * p) := by
  have hlen : span ≤ xs.length := le_of_lt (lt_of_le_of_lt hge hi)
  have hdl : (xs.drop span).length = xs.length - span := by simp
  have hi1 : i = span - 1 + (i - span + 1) := by omega
  have hi2 : i - 1 = span - 1 + (i - span) := by omega
  have hcur := emaSpec_getD_tail span xs hlen (i - span + 1)
  have hprev := emaSpec_getD_tail span xs hlen (i - span)
  rw [← hi1] at hcur
  rw [← hi2] at hprev
  rw [hcur, hprev]
  rcases Nat.eq_or_lt_of_le hge with heq | hgt
  · -- first recursive row: the previous cell is the seed
    have hk0 : i - span = 0 := by omega
    rw [hk0]
    cases hdrop : xs.drop span with
    | nil => rw [hdrop] at hdl; simp at hdl; omega
    | cons d0 rest =>
      refine ⟨(xs.take span).sum / span, rfl, ?_⟩
      rw [List.getD_cons_succ]
      have hd0 : d0 = xs.getD i 0 := by
        have h3 := getD_drop xs span 0
        rw [hdrop] at h3
        simpa [heq] using h3
      simp [emaRec, hd0]
  · -- later recursive rows: the previous cell is the previous EMA value
    obtain ⟨k, hk2⟩ : ∃ k, i - span = k + 1 := ⟨i - span - 1, by omega⟩
    have hklt : k + 1 < (xs.drop span).length := by omega
    rw [hk2]
    refine ⟨(emaRec (2 / ((span : ℚ) + 1)) ((xs.take span).sum / span)
      (xs.drop span)).getD k 0, ?_, ?_⟩
    · rw [List.getD_cons_succ, map_some_getD _ _ (by rw [emaRec_length]; omega)]
    · rw [List.getD_cons_succ,
        map_some_getD _ _ (by rw [emaRec_length]; omega)]
      have hrec := emaRec_getD_succ (2 / ((span : ℚ) + 1))
        ((xs.take span).sum / span) (xs.drop span) k hklt
      rw [hrec, getD_drop]
      have h4 : span + (k + 1) = i := by omega
      rw [h4]

theorem cellAt_aug_EMA12 (sq : ℚ → ℚ) (bars : List Bar) (i : ℕ) :
    cellAt (augFrame sq bars) "EMA_12" i
      = some (Option.map Val.num ((emaSpec 12 (closesOf bars)).getD i none)) := by
  simp [cellAt, augFrame, List.lookup, numCells_getElem?, List.getD_eq_getElem?_getD]

theorem cellAt_aug_EMA26 (sq : ℚ → ℚ) (bars : List Bar) (i : ℕ) :
    cellAt (augFrame sq bars) "EMA_26" i
      = some (Option.map Val.num ((emaSpec 26 (closesOf bars)).getD i none)) := by
  simp [cellAt, augFrame, List.lookup, numCells_getElem?, List.getD_eq_getElem?_getD]

/-- C7: the EMA_12 and EMA_26 columns of a successfully augmented table
follow the recursive smoothing `y = α·close + (1 − α)·previous` with
`α = 2/(span + 1)`, are seeded at row `span` with the SMA of the first
`span` closes, and are undefined at every earlier row. -/
theorem C7_ema_seed_and_recursion (sq : ℚ → ℚ) (bars : List Bar) (hne : bars ≠ [])
    (out : DataFrame)
    (hout : calculate_indicators sq (some (ohlcvFrame bars)) = some out) :
    ((∀ i, i < bars.length → i + 1 < 12 → cellAt out "EMA_12" i = some none) ∧
     (12 ≤ bars.length → cellAt out "EMA_12" 11 =
       some (some (Val.num (((closesOf bars).take 12).sum / 12)))) ∧
     (∀ i, 12 ≤ i → i < bars.length → ∃ p,
       cellAt out "EMA_12" (i - 1) = some (some (Val.num p)) ∧
       cellAt out "EMA_12" i = some (some (Val.num
         ((2 / ((12 : ℚ) + 1)) * (closesOf bars).getD i 0
           + (1 - 2 / ((12 : ℚ) + 1)) * p))))) ∧
    ((∀ i, i < bars.length → i + 1 < 26 → cellAt out "EMA_26" i = some none) ∧
     (26 ≤ bars.length → cellAt out "EMA_26" 25 =
       some (some (Val.num (((closesOf bars).take 26).sum / 26)))) ∧
     (∀ i, 26 ≤ i → i < bars.length → ∃ p,
       cellAt out "EMA_26" (i - 1) = some (some (Val.num p)) ∧
       cellAt out "EMA_26" i = some (some (Val.num
         ((2 / ((26 : ℚ) + 1)) * (closesOf bars).getD i 0
           + (1 - 2 / ((26 : ℚ) + 1)) * p))))) := by
  have hout2 : out = augFrame sq bars := by
    have hrun := calcRun_ohlcv sq bars hne
    rw [calculate_indicators, hrun] at hout
    exact (Option.some_injective _ hout).symm
  subst hout2
  have hcl : (closesOf bars).length = bars.length := closesOf_length bars
  constructor
  · refine ⟨fun i hi hlt => ?_, fun hlen => ?_, fun i hge hi => ?_⟩
    · rw [cellAt_aug_EMA12, emaSpec_getD_before 12 _ i (by omega) hlt]
      rfl
    · rw [cellAt_aug_EMA12,
        show (11 : ℕ) = 12 - 1 by rfl,
        emaSpec_getD_seed 12 (by norm_num) _ (by omega)]
      norm_num
    · obtain ⟨p, hp, hv⟩ := emaSpec_getD_rec 12 (by norm_num) (closesOf bars) i hge (by omega)
      refine ⟨p, ?_, ?_⟩
      · rw [cellAt_aug_EMA12, hp]
        rfl
      · rw [cellAt_aug_EMA12, hv]
        norm_num
  · refine ⟨fun i hi hlt => ?_, fun hlen => ?_, fun i hge hi => ?_⟩
    · rw [cellAt_aug_EMA26, emaSpec_getD_before 26 _ i (by omega) hlt]
      rfl
    · rw [cellAt_aug_EMA26,
        show (25 : ℕ) = 26 - 1 by rfl,
        emaSpec_getD_seed 26 (by norm_num) _ (by omega)]
      norm_num
    · obtain ⟨p, hp, hv⟩ := emaSpec_getD_rec 26 (by norm_num) (closesOf bars) i hge (by omega)
      refine ⟨p, ?_, ?_⟩
      · rw [cellAt_aug_EMA26, hp]
        rfl
      · rw [cellAt_aug_EMA26, hv]
        norm_num

theorem C7_ema_seed_and_recursion_witness :
    ((∀ i, i < oneBar.length → i + 1 < 12 →
       cellAt (augFrame id oneBar) "EMA_12" i = some none) ∧
     (12 ≤ oneBar.length → cellAt (augFrame id oneBar) "EMA_12" 11 =
       some (some (Val.num (((closesOf oneBar).take 12).sum / 12)))) ∧
     (∀ i, 12 ≤ i → i < oneBar.length → ∃ p,
       cellAt (augFrame id oneBar) "EMA_12" (i - 1) = some (some (Val.num p)) ∧
       cellAt (augFrame id oneBar) "EMA_12" i = some (some (Val.num
         ((2 / ((12 : ℚ) + 1)) * (closesOf oneBar).getD i 0
           + (1 - 2 / ((12 : ℚ) + 1)) * p))))) ∧
    ((∀ i, i < oneBar.length → i + 1 < 26 →
       cellAt (augFrame id oneBar) "EMA_26" i = some none) ∧
     (26 ≤ oneBar.length → cellAt (augFrame id oneBar) "EMA_26" 25 =
       some (some (Val.num (((closesOf oneBar).take 26).sum / 26)))) ∧
     (∀ i, 26 ≤ i → i < oneBar.length → ∃ p,
       cellAt (augFrame id oneBar) "EMA_26" (i - 1) = some (some (Val.num p)) ∧
       cellAt (augFrame id oneBar) "EMA_26" i = some (some (Val.num
         ((2 / ((26 : ℚ) + 1)) * (closesOf oneBar).getD i 0
           + (1 - 2 / ((26 : ℚ) + 1)) * p))))) :=
  C7_ema_seed_and_recursion id oneBar (by decide) (augFrame id oneBar)
    (by rw [calculate_indicators, calcRun_ohlcv id oneBar (by decide)])

theorem cellAt_aug_StochK (sq : ℚ → ℚ) (bars : List Bar) (i : ℕ) :
    cellAt (augFrame sq bars) "Stoch_K" i
      = some (Option.map Val.num ((stochOpt (List.map (some ∘ Bar.h) bars)
          (List.map (some ∘ Bar.l) bars)
          (List.map (some ∘ Bar.c) bars)).getD i none)) := by
  simp [cellAt, augFrame, List.lookup, numCells_getElem?, List.getD_eq_getElem?_getD,
    closesOf]

/-- C8: an input row whose trailing 14-bar High maximum coincides with
its Low minimum (a zero High/Low range) does not crash the computation —
the whole run still succeeds — and its Stoch_K cell is undefined, not
zero. -/
theorem C8_stoch_zero_range_undefined (sq : ℚ → ℚ) (bars : List Bar) (hne : bars ≠ [])
    (out : DataFrame)
    (hout : calculate_indicators sq (some (ohlcvFrame bars)) = some out)
    (i : ℕ) (h14 : 13 ≤ i) (hi : i < bars.length) (m : ℚ)
    (hmax : listMax (((bars.map Bar.h).take (i + 1)).drop (i + 1 - 14)) = some m)
    (hmin : listMin (((bars.map Bar.l).take (i + 1)).drop (i + 1 - 14)) = some m) :
    (calcRun sq (some (ohlcvFrame bars))).2 = true ∧
    cellAt out "Stoch_K" i = some none := by
  have hout2 : out = augFrame sq bars := by
    have hrun := calcRun_ohlcv sq bars hne
    rw [calculate_indicators, hrun] at hout
    exact (Option.some_injective _ hout).symm
  subst hout2
  refine ⟨by rw [calcRun_ohlcv sq bars hne], ?_⟩
  have h1 : ((List.map (some ∘ Bar.h) bars).take (i + 1)).drop (i + 1 - 14)
      = (((bars.map Bar.h).take (i + 1)).drop (i + 1 - 14)).map some := by
    simp [List.map_take, List.map_drop, List.map_map]
  have h2 : ((List.map (some ∘ Bar.l) bars).take (i + 1)).drop (i + 1 - 14)
      = (((bars.map Bar.l).take (i + 1)).drop (i + 1 - 14)).map some := by
    simp [List.map_take, List.map_drop, List.map_map]
  have h3 : (List.map (some ∘ Bar.c) bars).getD i none
      = some ((bars.map Bar.c).getD i 0) := by
    rw [← List.map_map]
    exact map_some_getD _ _ (by simpa using hi)
  rw [cellAt_aug_StochK sq bars i, stochOpt, List.getD_eq_getElem?_getD,
    rangeMap_getElem? _ _ i (by simpa using hi)]
  simp only [stochAt, if_pos (show (14 : ℕ) ≤ i + 1 by omega), h1, h2, h3,
    all_isSome_map_some, Bool.and_self, reduceOption_map_some, if_true, hmax, hmin]
  simp

set_option maxRecDepth 8000 in
theorem C8_stoch_zero_range_undefined_witness :
    (calcRun id (some (ohlcvFrame flatBars))).2 = true ∧
    cellAt (augFrame id flatBars) "Stoch_K" 13 = some none :=
  C8_stoch_zero_range_undefined id flatBars (by decide) (augFrame id flatBars)
    (by rw [calculate_indicators, calcRun_ohlcv id flatBars (by decide)])
    13 (by decide) (by decide) 2 (by decide) (by decide)
